import Mathlib

/-!
Shallow embedding of the jejo_recipe_finder backend (Laravel) and frontend
router, covering:

* `RecipeService` (`fetchRecipes`, `saveRecipe`, `saveRecipes`,
  `attachDishTypes`, `attachIngredients`),
* `RecipeController::index` (search with external-provider fallback),
* `FavoriteController` (`store`, `destroy`, `check`, `fetchFavorites`),
* the Vue router global guard (`router.beforeEach`).

Relational state is modelled as explicit lists of rows; Eloquent query
builder calls become list operations (`filter`, `find?`, `any`,
`insertionSort` for `orderBy`, `drop`/`take` for `paginate`).  SQL
`LIKE '%q%'` is modelled case-insensitively with `%`/`_` wildcard
semantics for the unescaped interpolated query (`likeMatch`), and PHP
string truthiness (`if ($query)`: `null`, `""` and `"0"` are falsy) is
modelled by `phpTruthy`.
-/

namespace JejoRecipeFinder

/-- PHP truthiness of an optional request string: `null`, `""` and `"0"`
are falsy, everything else truthy (`if ($query)` in the controllers). -/
def phpTruthy : Option String → Bool
  | none => false
  | some s => !(s == "" || s == "0")

/-- ASCII lower-casing of one character, as a code point. -/
def lowerCode (c : Char) : Nat :=
  if 65 ≤ c.toNat ∧ c.toNat ≤ 90 then c.toNat + 32 else c.toNat

/-- Lower-cased code-point list of a string (collation side of `LIKE`). -/
def lowerChars (s : String) : List Nat := s.toList.map lowerCode

/-- `startsWithChars hay needle`: `needle` is a prefix of `hay`. -/
def startsWithChars : List Nat → List Nat → Bool
  | _, [] => true
  | [], _ :: _ => false
  | a :: as, b :: bs => a == b && startsWithChars as bs

/-- `containsChars hay needle`: `needle` occurs contiguously in `hay`. -/
def containsChars : List Nat → List Nat → Bool
  | [], needle => needle.isEmpty
  | a :: as, needle => startsWithChars (a :: as) needle || containsChars as needle

/-- Literal case-insensitive substring containment of `q` in `field` —
the reading "title contains X as a case-insensitive substring", with no
wildcard interpretation of `q`'s characters. -/
def substrMatch (q field : String) : Bool :=
  containsChars (lowerChars field) (lowerChars q)

/-! SQL `LIKE` with the user's query interpolated unescaped into the
pattern `%q%`: `%` in `q` matches any (possibly empty) run of
characters and `_` matches exactly one character.  Splitting `q` at its
`%`s yields words `w0 .. wk` (each a list of one-character matchers:
`none` for `_`, `some c` for a literal); `'%q%'` matches `s` exactly
when `w0, .., wk` occur in `s` contiguously each, in order, without
overlap — found below by leftmost-first search, which is complete for
patterns of this shape.  Escape sequences are not interpreted, matching
SQLite's default `LIKE` (no `ESCAPE` clause), the development database
of this repository. -/

/-- Match one pattern word (`%`-free) against the head of `s`: `none`
matches any single character, `some c` the literal `c`.  Returns the
rest of `s` on success. -/
def wordAt : List (Option Nat) → List Nat → Option (List Nat)
  | [], s => some s
  | _ :: _, [] => none
  | m :: ms, a :: s =>
      match m with
      | none => wordAt ms s
      | some c => if c == a then wordAt ms s else none

/-- Find the leftmost contiguous occurrence of word `w` in `s`; return
the remainder of `s` after it. -/
def findWord (w : List (Option Nat)) : List Nat → Option (List Nat)
  | [] => wordAt w []
  | a :: t =>
      match wordAt w (a :: t) with
      | some rest => some rest
      | none => findWord w t

/-- Split the lowered query at `%` (code 37) into pattern words, turning
`_` (code 95) into the any-character matcher. -/
def splitSegs : List Nat → List (List (Option Nat))
  | [] => [[]]
  | c :: rest =>
      if c == 37 then [] :: splitSegs rest
      else
        match splitSegs rest with
        | [] => [[if c == 95 then none else some c]]
        | seg :: segs => ((if c == 95 then none else some c) :: seg) :: segs

/-- Find the pattern words in order, each after the previous one. -/
def findSeq : List (List (Option Nat)) → List Nat → Bool
  | [], _ => true
  | w :: ws, s =>
      match findWord w s with
      | none => false
      | some rest => findSeq ws rest

/-- SQL `field LIKE '%q%'` under a case-insensitive collation, with
`%` and `_` in the interpolated query acting as wildcards. -/
def likeMatch (q field : String) : Bool :=
  findSeq (splitSegs (lowerChars q)) (lowerChars field)

/-! ## Relational rows (database/migrations and app/Models) -/

/-- A row of the `recipes` table (`create_recipes` migration): surrogate
`id`, unique `spoonacular_id`, core content fields, `created_at`. -/
structure Recipe where
  id : Nat
  spoonacular_id : Nat
  title : String
  image : Option String
  ready_in_minutes : Option Nat
  servings : Option Nat
  summary : String
  instructions : String
  source_url : String
  created_at : Nat
deriving Repr, DecidableEq

/-- A row of the `ingredients` table: keyed by `spoonacular_id`. -/
structure IngredientRow where
  id : Nat
  spoonacular_id : Nat
  name : String
deriving Repr, DecidableEq

/-- A row of the `dish_types` table: keyed by `name`. -/
structure DishTypeRow where
  id : Nat
  name : String
deriving Repr, DecidableEq

/-- A row of the `recipe_ingredient` pivot table with edge attributes
`amount` and `unit` (`create_recipe_ingredient` migration). -/
structure RecipeIngredientRow where
  recipe_id : Nat
  ingredient_id : Nat
  amount : Option Int
  unit : Option String
deriving Repr, DecidableEq

/-- A row of the `recipe_dish_type` pivot table. -/
structure RecipeDishTypeRow where
  recipe_id : Nat
  dish_type_id : Nat
deriving Repr, DecidableEq

/-- A row of the `favorites` table: the (user, recipe) join entity,
with its own `created_at` timestamp. -/
structure FavoriteRow where
  user_id : Nat
  recipe_id : Nat
  created_at : Nat
deriving Repr, DecidableEq

/-- The relational database state, plus auto-increment counters. -/
structure DB where
  recipes : List Recipe
  ingredients : List IngredientRow
  dishTypes : List DishTypeRow
  recipeIngredient : List RecipeIngredientRow
  recipeDishType : List RecipeDishTypeRow
  favorites : List FavoriteRow
  nextRecipeId : Nat
  nextIngredientId : Nat
  nextDishTypeId : Nat
deriving Repr, DecidableEq

/-! ## External provider payload (Spoonacular JSON items) -/

/-- One entry of a provider item's `extendedIngredients` list. -/
structure ApiIngredient where
  id : Nat
  name : String
  amount : Option Int
  unit : Option String
deriving Repr, DecidableEq

/-- One recipe item as returned by the external provider.  Optional
fields reflect the `?? ''` / `?? null` defaults in `saveRecipe`. -/
structure ApiRecipe where
  id : Nat
  title : Option String
  image : Option String
  readyInMinutes : Option Nat
  servings : Option Nat
  summary : Option String
  instructions : Option String
  sourceUrl : Option String
  dishTypes : List String
  extendedIngredients : List ApiIngredient
deriving Repr, DecidableEq

/-- Outcome of the HTTP call to the provider: a network-level exception,
or an HTTP response that is either successful (2xx) or not, carrying the
decoded item list. -/
inductive ProviderResult where
  | netError
  | httpResp (ok : Bool) (items : List ApiRecipe)
deriving Repr, DecidableEq

/-- `RecipeService::fetchRecipes`: a network exception propagates
(`.error`), a non-2xx response yields `[]`, a 2xx response yields the
decoded `results`/`recipes` list.  (The query only selects which
provider endpoint is called; it does not change the result shape.) -/
def fetchRecipes (provider : ProviderResult) : Except Unit (List ApiRecipe) :=
  match provider with
  | .netError => .error ()
  | .httpResp ok items => .ok (if ok then items else [])

/-! ## RecipeService: upsert (saveRecipe and the two attach helpers) -/

/-- `Recipe::firstOrCreate(['spoonacular_id' => ...], [...])`: return the
first existing row with that external id unchanged, otherwise insert a
fresh row built from the payload with the `??` defaults. -/
def recipeFirstOrCreate (db : DB) (item : ApiRecipe) (now : Nat) : Recipe × DB :=
  match db.recipes.find? (fun r => r.spoonacular_id == item.id) with
  | some r => (r, db)
  | none =>
      let r : Recipe :=
        { id := db.nextRecipeId
          spoonacular_id := item.id
          title := item.title.getD ""
          image := item.image
          ready_in_minutes := item.readyInMinutes
          servings := item.servings
          summary := item.summary.getD ""
          instructions := item.instructions.getD ""
          source_url := item.sourceUrl.getD ""
          created_at := now }
      (r, { db with recipes := db.recipes ++ [r], nextRecipeId := db.nextRecipeId + 1 })

/-- `DishType::firstOrCreate(['name' => ...])`. -/
def dishTypeFirstOrCreate (db : DB) (name : String) : Nat × DB :=
  match db.dishTypes.find? (fun d => d.name == name) with
  | some d => (d.id, db)
  | none =>
      (db.nextDishTypeId,
       { db with dishTypes := db.dishTypes ++ [⟨db.nextDishTypeId, name⟩],
                 nextDishTypeId := db.nextDishTypeId + 1 })

/-- `Ingredient::firstOrCreate(['spoonacular_id' => ...], ['name' => ...])`. -/
def ingredientFirstOrCreate (db : DB) (ing : ApiIngredient) : Nat × DB :=
  match db.ingredients.find? (fun i => i.spoonacular_id == ing.id) with
  | some i => (i.id, db)
  | none =>
      (db.nextIngredientId,
       { db with ingredients := db.ingredients ++ [⟨db.nextIngredientId, ing.id, ing.name⟩],
                 nextIngredientId := db.nextIngredientId + 1 })

/-- The `$ids[] = $dishType->id` loop of `attachDishTypes`: resolve each
dish-type name to a row id via `firstOrCreate`, threading the database. -/
def dishTypeIds (db : DB) : List String → List Nat × DB
  | [] => ([], db)
  | ty :: rest =>
      let p := dishTypeFirstOrCreate db ty
      let q := dishTypeIds p.2 rest
      (p.1 :: q.1, q.2)

/-- One step of `syncWithoutDetaching` for the dish-type pivot: attach
the pair when absent, never detach. -/
def syncDishOne (recipeId : Nat) (rows : List RecipeDishTypeRow) (dtId : Nat) :
    List RecipeDishTypeRow :=
  if rows.any (fun row => row.recipe_id == recipeId && row.dish_type_id == dtId) then rows
  else rows ++ [⟨recipeId, dtId⟩]

/-- `$recipe->dishTypes()->syncWithoutDetaching($ids)`. -/
def syncDishWithoutDetaching (recipeId : Nat) :
    List RecipeDishTypeRow → List Nat → List RecipeDishTypeRow
  | rows, [] => rows
  | rows, i :: rest => syncDishWithoutDetaching recipeId (syncDishOne recipeId rows i) rest

/-- `RecipeService::attachDishTypes`: early return on an empty list,
otherwise resolve ids and sync without detaching. -/
def attachDishTypes (db : DB) (recipeId : Nat) (names : List String) : DB :=
  if names.isEmpty then db
  else
    let p := dishTypeIds db names
    { p.2 with recipeDishType := syncDishWithoutDetaching recipeId p.2.recipeDishType p.1 }

/-- Insertion into a PHP associative array `$syncData[$id] = [...]`:
a repeated key overwrites the value in place, a new key appends. -/
def assocInsert (l : List (Nat × Option Int × Option String)) (k : Nat)
    (v : Option Int × Option String) : List (Nat × Option Int × Option String) :=
  if l.any (fun p => p.1 == k) then
    l.map (fun p => if p.1 == k then (k, v) else p)
  else l ++ [(k, v)]

/-- The `$syncData` building loop of `attachIngredients`: resolve each
ingredient to a row id via `firstOrCreate` and record its pivot data. -/
def ingredientSyncData (db : DB) (acc : List (Nat × Option Int × Option String)) :
    List ApiIngredient → List (Nat × Option Int × Option String) × DB
  | [] => (acc, db)
  | ing :: rest =>
      let p := ingredientFirstOrCreate db ing
      ingredientSyncData p.2 (assocInsert acc p.1 (ing.amount, ing.unit)) rest

/-- One step of `syncWithoutDetaching` for the ingredient pivot: update
the pivot attributes when the pair is attached, attach it otherwise;
never detach. -/
def syncIngOne (recipeId : Nat) (rows : List RecipeIngredientRow)
    (e : Nat × Option Int × Option String) : List RecipeIngredientRow :=
  if rows.any (fun row => row.recipe_id == recipeId && row.ingredient_id == e.1) then
    rows.map (fun row =>
      if row.recipe_id == recipeId && row.ingredient_id == e.1 then
        { row with amount := e.2.1, unit := e.2.2 }
      else row)
  else rows ++ [⟨recipeId, e.1, e.2.1, e.2.2⟩]

/-- `$recipe->ingredients()->syncWithoutDetaching($syncData)`. -/
def syncIngWithoutDetaching (recipeId : Nat) :
    List RecipeIngredientRow → List (Nat × Option Int × Option String) →
    List RecipeIngredientRow
  | rows, [] => rows
  | rows, e :: rest => syncIngWithoutDetaching recipeId (syncIngOne recipeId rows e) rest

/-- `RecipeService::attachIngredients`. -/
def attachIngredients (db : DB) (recipeId : Nat) (ings : List ApiIngredient) : DB :=
  if ings.isEmpty then db
  else
    let p := ingredientSyncData db [] ings
    { p.2 with recipeIngredient := syncIngWithoutDetaching recipeId p.2.recipeIngredient p.1 }

/-- `RecipeService::saveRecipe`: `firstOrCreate` on the external id, then
attach dish types, then attach ingredients. -/
def saveRecipe (db : DB) (item : ApiRecipe) (now : Nat) : DB :=
  let p := recipeFirstOrCreate db item now
  attachIngredients (attachDishTypes p.2 p.1.id item.dishTypes) p.1.id item.extendedIngredients

/-- `RecipeService::saveRecipes`: save each payload item in order. -/
def saveRecipes (db : DB) (items : List ApiRecipe) (now : Nat) : DB :=
  match items with
  | [] => db
  | item :: rest => saveRecipes (saveRecipe db item now) rest now

/-! ## RecipeController::index -/

/-- A recipe row with its `dishTypes` and `ingredients` relations
eagerly loaded (`with(['dishTypes', 'ingredients'])`), the ingredient
side carrying the pivot attributes. -/
structure LoadedRecipe where
  recipe : Recipe
  dishTypes : List DishTypeRow
  ingredients : List (IngredientRow × Option Int × Option String)
deriving Repr, DecidableEq

/-- Eager-load the two relations of one recipe row from the pivot
tables. -/
def loadRelations (db : DB) (r : Recipe) : LoadedRecipe :=
  { recipe := r
    dishTypes := db.dishTypes.filter (fun d =>
      db.recipeDishType.any (fun row => row.recipe_id == r.id && row.dish_type_id == d.id))
    ingredients := (db.recipeIngredient.filter (fun row => row.recipe_id == r.id)).filterMap
      (fun row => (db.ingredients.find? (fun i => i.id == row.ingredient_id)).map
        (fun i => (i, row.amount, row.unit))) }

/-- JSON body of `RecipeController::index`. -/
structure RecipeIndexResponse where
  status : String
  source : String
  count : Nat
  data : List LoadedRecipe
deriving Repr, DecidableEq

/-- The database-only fallback branch of `index`: with a PHP-truthy
query, a `LIKE` filter on `title`; otherwise `inRandomOrder`, modelled
by an arbitrary reordering `shuffle`; then `limit`. -/
def dbFallback (shuffle : List Recipe → List Recipe) (db : DB)
    (query : Option String) (limit : Nat) : RecipeIndexResponse × DB :=
  let base :=
    if phpTruthy query then
      db.recipes.filter (fun r => likeMatch (query.getD "") r.title)
    else shuffle db.recipes
  let rows := base.take limit
  ({ status := "success", source := "database", count := rows.length,
     data := rows.map (loadRelations db) }, db)

/-- `RecipeController::index`: try the provider; on a thrown error or an
empty result set fall back to the database; on a non-empty result save
all items and re-read them from the `recipes` table by `spoonacular_id`
with relations eagerly loaded. -/
def index (shuffle : List Recipe → List Recipe) (db : DB)
    (provider : ProviderResult) (query : Option String) (now : Nat) :
    RecipeIndexResponse × DB :=
  match fetchRecipes provider with
  | .error _ => dbFallback shuffle db query 10
  | .ok items =>
      if items.isEmpty then dbFallback shuffle db query 10
      else
        let db2 := saveRecipes db items now
        let ids := items.map (fun i => i.id)
        let rows := db2.recipes.filter (fun r => ids.contains r.spoonacular_id)
        ({ status := "success", source := "api", count := rows.length,
           data := rows.map (loadRelations db2) }, db2)

/-! ## FavoriteController -/

/-- A raw `recipe_id` request input as seen by the validator: absent,
present but not an integer, or an integer value. -/
inductive RawVal where
  | missing
  | notInt
  | intVal (n : Nat)
deriving Repr, DecidableEq

/-- The `'recipe_id' => 'required|integer|exists:recipes,id'` rule:
`some n` exactly when the input is an integer that is the `id` of a
persisted recipe row; `none` means a `ValidationException` (422). -/
def validateRecipeId (db : DB) : RawVal → Option Nat
  | .missing => none
  | .notInt => none
  | .intVal n => if db.recipes.any (fun r => r.id == n) then some n else none

/-- `Favorite::where(user)->where(recipe)->exists()`. -/
def pairExists (favs : List FavoriteRow) (u rid : Nat) : Bool :=
  favs.any (fun f => f.user_id == u && f.recipe_id == rid)

/-- `Favorite::where(user)->where(recipe)->first()`. -/
def pairFirst (favs : List FavoriteRow) (u rid : Nat) : Option FavoriteRow :=
  favs.find? (fun f => f.user_id == u && f.recipe_id == rid)

/-- `$favorite->delete()` after a `first()` lookup: remove the first row
satisfying the predicate, keep everything else. -/
def removeFirstBy (p : α → Bool) : List α → List α
  | [] => []
  | a :: as => if p a then as else a :: removeFirstBy p as

/-- Status portion of a favorites store/destroy JSON response. -/
structure FavActionResponse where
  http : Nat
  status : String
deriving Repr, DecidableEq

/-- JSON body of `FavoriteController::check`: `is_favorited` is present
only on the success path. -/
structure FavCheckResponse where
  http : Nat
  status : String
  is_favorited : Option Bool
deriving Repr, DecidableEq

/-- `FavoriteController::store`: validate `recipe_id`, reject an already
existing (user, recipe) pair with 409, otherwise insert the join row and
answer 201. -/
def favStore (db : DB) (u : Nat) (rv : RawVal) (now : Nat) : FavActionResponse × DB :=
  match validateRecipeId db rv with
  | none => (⟨422, "error"⟩, db)
  | some rid =>
      if pairExists db.favorites u rid then (⟨409, "error"⟩, db)
      else
        (⟨201, "success"⟩,
         { db with favorites := db.favorites ++ [⟨u, rid, now⟩] })

/-- `FavoriteController::destroy`: validate `recipe_id`, answer 404 when
the (user, recipe) pair is absent, otherwise delete the found row. -/
def favDestroy (db : DB) (u : Nat) (rv : RawVal) : FavActionResponse × DB :=
  match validateRecipeId db rv with
  | none => (⟨422, "error"⟩, db)
  | some rid =>
      match pairFirst db.favorites u rid with
      | none => (⟨404, "error"⟩, db)
      | some _ =>
          (⟨200, "success"⟩,
           { db with favorites :=
               removeFirstBy (fun f => f.user_id == u && f.recipe_id == rid) db.favorites })

/-- `FavoriteController::check`: validate `recipe_id`, then report
whether the (user, recipe) pair exists. -/
def favCheck (db : DB) (u : Nat) (rv : RawVal) : FavCheckResponse :=
  match validateRecipeId db rv with
  | none => ⟨422, "error", none⟩
  | some rid => ⟨200, "success", some (pairExists db.favorites u rid)⟩

/-- JSON body of `FavoriteController::fetchFavorites` (paginated). -/
structure FavListResponse where
  status : String
  count : Nat
  total : Nat
  current_page : Nat
  last_page : Nat
  data : List LoadedRecipe
deriving Repr, DecidableEq

/-- `FavoriteController::fetchFavorites`: recipes having a favorite row
of the calling user (`whereHas`), an optional PHP-truthy `LIKE` filter
on title or summary, `orderBy(title asc)` when `sort_by_name` is truthy
and `orderBy(created_at desc)` otherwise — both on the *recipes* table —
then offset pagination. -/
def fetchFavorites (db : DB) (u : Nat) (search : Option String)
    (sortByName : Bool) (limit page : Nat) : FavListResponse :=
  let base := db.recipes.filter (fun r => pairExists db.favorites u r.id)
  let searched :=
    if phpTruthy search then
      base.filter (fun r =>
        likeMatch (search.getD "") r.title || likeMatch (search.getD "") r.summary)
    else base
  let sorted :=
    if sortByName then
      List.insertionSort (fun a b => a.title ≤ b.title) searched
    else
      List.insertionSort (fun a b => b.created_at ≤ a.created_at) searched
  let items := (sorted.drop ((page - 1) * limit)).take limit
  { status := "success"
    count := items.length
    total := sorted.length
    current_page := page
    last_page := max ((sorted.length + limit - 1) / limit) 1
    data := items.map (loadRelations db) }

/-- Modelled from the spec: the order "most-recently-favorited first" —
the user's favorite join rows sorted by *their own* `created_at`
descending, projected to recipe ids.  (The repository has no code
computing this order; it is the order the spec asserts for the default
listing.) -/
def specMostRecentlyFavoritedIds (db : DB) (u : Nat) : List Nat :=
  (List.insertionSort (fun a b => b.created_at ≤ a.created_at)
    (db.favorites.filter (fun f => f.user_id == u))).map (fun f => f.recipe_id)

/-! ## Vue router global guard (`router.beforeEach`) -/

/-- The navigation target as seen by the guard: route name,
`to.matched.some(requiresAuth)` and `to.meta.requiresGuest`. -/
structure RouteTarget where
  name : Option String
  matchedRequiresAuth : Bool
  metaRequiresGuest : Bool
deriving Repr, DecidableEq

/-- Outcome of the guard: `next({name:'home'})`, `next('/search')`, or
plain `next()`. -/
inductive NavDecision where
  | redirectHome
  | redirectSearch
  | proceed
deriving Repr, DecidableEq

/-- Guard result: the navigation decision plus the notification messages
emitted during the guard run. -/
structure GuardResult where
  decision : NavDecision
  notifications : List String
deriving Repr, DecidableEq

/-- `router.beforeEach`: emit the page-name notification first, then
redirect to `home` for an auth-only target without a logged-in user,
redirect to `/search` for a guest-only target with a logged-in user,
and otherwise proceed. -/
def beforeEach (loggedIn : Bool) (t : RouteTarget) : GuardResult :=
  let pageName := (match t.name with | some n => n | none => "undefined") ++ " Page"
  let notifs := [pageName]
  if t.matchedRequiresAuth && !loggedIn then ⟨.redirectHome, notifs⟩
  else if t.metaRequiresGuest && loggedIn then ⟨.redirectSearch, notifs⟩
  else ⟨.proceed, notifs⟩

/-! ## Counting helpers for the stated invariants -/

/-- `Recipe::where('spoonacular_id', sid)->count()`. -/
def countBySpoon (db : DB) (sid : Nat) : Nat :=
  (db.recipes.filter (fun r => r.spoonacular_id == sid)).length

/-- Number of favorite join rows for one (user, recipe) pair. -/
def pairCount (favs : List FavoriteRow) (u rid : Nat) : Nat :=
  (favs.filter (fun f => f.user_id == u && f.recipe_id == rid)).length

/-- The (recipe, ingredient) pairs attached in the ingredient pivot
table, forgetting the pivot attributes. -/
def attachedPairs (rows : List RecipeIngredientRow) : List (Nat × Nat) :=
  rows.map (fun row => (row.recipe_id, row.ingredient_id))

/-! ## Concrete sample data (used to instantiate the theorems) -/

/-- The empty database. -/
def emptyDB : DB := ⟨[], [], [], [], [], [], 1, 1, 1⟩

/-- A persisted recipe row with external id 100. -/
def appleRecipe : Recipe :=
  { id := 1, spoonacular_id := 100, title := "Apple Pie", image := none,
    ready_in_minutes := none, servings := none, summary := "", instructions := "",
    source_url := "", created_at := 0 }

/-- A database holding exactly `appleRecipe`. -/
def dbApple : DB := { emptyDB with recipes := [appleRecipe], nextRecipeId := 2 }

/-- A provider item carrying the same external id as `appleRecipe` but
different field values. -/
def appleItem : ApiRecipe :=
  { id := 100, title := some "Fresh Apple Pie", image := some "pie.png",
    readyInMinutes := some 45, servings := some 8, summary := some "new summary",
    instructions := some "bake", sourceUrl := some "http://pie",
    dishTypes := ["dessert"],
    extendedIngredients := [{ id := 9001, name := "apple", amount := some 3, unit := some "pcs" }] }

/-- An older recipe row (persisted first). -/
def stewRecipe : Recipe :=
  { id := 1, spoonacular_id := 11, title := "Old Stew", image := none,
    ready_in_minutes := none, servings := none, summary := "", instructions := "",
    source_url := "", created_at := 1 }

/-- A newer recipe row (persisted second). -/
def cakeRecipe : Recipe :=
  { id := 2, spoonacular_id := 22, title := "New Cake", image := none,
    ready_in_minutes := none, servings := none, summary := "", instructions := "",
    source_url := "", created_at := 2 }

/-- User 1 favorited the newer recipe first (at time 3)... -/
def favCakeAt3 : FavoriteRow := { user_id := 1, recipe_id := 2, created_at := 3 }

/-- ...and the older recipe afterwards (at time 4). -/
def favStewAt4 : FavoriteRow := { user_id := 1, recipe_id := 1, created_at := 4 }

/-- Database for the favorites-ordering scenario: the most recently
favorited recipe (`stewRecipe`) is the *older* recipe row. -/
def dbFavOrder : DB :=
  { emptyDB with
    recipes := [stewRecipe, cakeRecipe]
    favorites := [favCakeAt3, favStewAt4]
    nextRecipeId := 3 }

/-- A favorite row of a second user (user 2), used to instantiate the
user-isolation theorem. -/
def favOtherUser : FavoriteRow := { user_id := 2, recipe_id := 1, created_at := 9 }

/-- A favorite row of user 7 for recipe 1. -/
def favSeven : FavoriteRow := { user_id := 7, recipe_id := 1, created_at := 2 }

/-- `dbApple` with favorites of user 7 and of another user (user 2). -/
def dbTwoUsers : DB := { dbApple with favorites := [favSeven, favOtherUser] }

/-- `dbApple` with only user 7's favorite row: agrees with `dbTwoUsers`
on user 7's rows. -/
def dbUserSeven : DB := { dbApple with favorites := [favSeven] }

/-! ### Frame lemmas: which tables each service helper leaves untouched -/

theorem dishTypeFirstOrCreate_frame (db : DB) (n : String) :
    ((dishTypeFirstOrCreate db n).2).recipes = db.recipes ∧
    ((dishTypeFirstOrCreate db n).2).ingredients = db.ingredients ∧
    ((dishTypeFirstOrCreate db n).2).recipeIngredient = db.recipeIngredient ∧
    ((dishTypeFirstOrCreate db n).2).recipeDishType = db.recipeDishType ∧
    ((dishTypeFirstOrCreate db n).2).favorites = db.favorites := by
  unfold dishTypeFirstOrCreate
  cases db.dishTypes.find? (fun d => d.name == n) <;> simp

theorem dishTypeIds_frame (names : List String) (db : DB) :
    ((dishTypeIds db names).2).recipes = db.recipes ∧
    ((dishTypeIds db names).2).ingredients = db.ingredients ∧
    ((dishTypeIds db names).2).recipeIngredient = db.recipeIngredient ∧
    ((dishTypeIds db names).2).recipeDishType = db.recipeDishType ∧
    ((dishTypeIds db names).2).favorites = db.favorites := by
  induction names generalizing db with
  | nil => simp [dishTypeIds]
  | cons ty rest ih =>
      have h1 := dishTypeFirstOrCreate_frame db ty
      have h2 := ih (dishTypeFirstOrCreate db ty).2
      exact ⟨h2.1.trans h1.1, h2.2.1.trans h1.2.1, h2.2.2.1.trans h1.2.2.1,
             h2.2.2.2.1.trans h1.2.2.2.1, h2.2.2.2.2.trans h1.2.2.2.2⟩

theorem attachDishTypes_frame (db : DB) (rid : Nat) (names : List String) :
    (attachDishTypes db rid names).recipes = db.recipes ∧
    (attachDishTypes db rid names).ingredients = db.ingredients ∧
    (attachDishTypes db rid names).recipeIngredient = db.recipeIngredient ∧
    (attachDishTypes db rid names).favorites = db.favorites := by
  by_cases h : names.isEmpty
  · simp [attachDishTypes, h]
  · have hf := dishTypeIds_frame names db
    simp only [attachDishTypes, h, Bool.false_eq_true, if_false]
    exact ⟨hf.1, hf.2.1, hf.2.2.1, hf.2.2.2.2⟩

theorem ingredientFirstOrCreate_frame (db : DB) (ing : ApiIngredient) :
    ((ingredientFirstOrCreate db ing).2).recipes = db.recipes ∧
    ((ingredientFirstOrCreate db ing).2).dishTypes = db.dishTypes ∧
    ((ingredientFirstOrCreate db ing).2).recipeIngredient = db.recipeIngredient ∧
    ((ingredientFirstOrCreate db ing).2).recipeDishType = db.recipeDishType ∧
    ((ingredientFirstOrCreate db ing).2).favorites = db.favorites := by
  unfold ingredientFirstOrCreate
  cases db.ingredients.find? (fun i => i.spoonacular_id == ing.id) <;> simp

theorem ingredientSyncData_frame (ings : List ApiIngredient)
    (db : DB) (acc : List (Nat × Option Int × Option String)) :
    ((ingredientSyncData db acc ings).2).recipes = db.recipes ∧
    ((ingredientSyncData db acc ings).2).dishTypes = db.dishTypes ∧
    ((ingredientSyncData db acc ings).2).recipeIngredient = db.recipeIngredient ∧
    ((ingredientSyncData db acc ings).2).recipeDishType = db.recipeDishType ∧
    ((ingredientSyncData db acc ings).2).favorites = db.favorites := by
  induction ings generalizing db acc with
  | nil => simp [ingredientSyncData]
  | cons ing rest ih =>
      have h1 := ingredientFirstOrCreate_frame db ing
      have h2 := ih (ingredientFirstOrCreate db ing).2
        (assocInsert acc (ingredientFirstOrCreate db ing).1 (ing.amount, ing.unit))
      exact ⟨h2.1.trans h1.1, h2.2.1.trans h1.2.1, h2.2.2.1.trans h1.2.2.1,
             h2.2.2.2.1.trans h1.2.2.2.1, h2.2.2.2.2.trans h1.2.2.2.2⟩

theorem attachIngredients_frame (db : DB) (rid : Nat) (ings : List ApiIngredient) :
    (attachIngredients db rid ings).recipes = db.recipes ∧
    (attachIngredients db rid ings).dishTypes = db.dishTypes ∧
    (attachIngredients db rid ings).recipeDishType = db.recipeDishType ∧
    (attachIngredients db rid ings).favorites = db.favorites := by
  by_cases h : ings.isEmpty
  · simp [attachIngredients, h]
  · have hf := ingredientSyncData_frame ings db []
    simp only [attachIngredients, h, Bool.false_eq_true, if_false]
    exact ⟨hf.1, hf.2.1, hf.2.2.2.1, hf.2.2.2.2⟩

theorem saveRecipe_recipes (db : DB) (item : ApiRecipe) (now : Nat) :
    (saveRecipe db item now).recipes = ((recipeFirstOrCreate db item now).2).recipes := by
  unfold saveRecipe
  exact ((attachIngredients_frame _ _ _).1).trans (attachDishTypes_frame _ _ _).1

/-- C2: upserting an item whose external id already has a persisted row
creates no new Recipe row — the count by that external id stays exactly
one — and leaves all previously persisted core fields unchanged:
first-write-wins per external id. -/
theorem saveRecipe_first_write_wins (db : DB) (item : ApiRecipe) (now : Nat) (r0 : Recipe)
    (hfind : db.recipes.find? (fun r => r.spoonacular_id == item.id) = some r0)
    (hcount : countBySpoon db item.id = 1) :
    (saveRecipe db item now).recipes = db.recipes ∧
    countBySpoon (saveRecipe db item now) item.id = 1 ∧
    (saveRecipe db item now).recipes.find? (fun r => r.spoonacular_id == item.id) = some r0 := by
  have hfc : recipeFirstOrCreate db item now = (r0, db) := by
    unfold recipeFirstOrCreate
    rw [hfind]
  have hrec : (saveRecipe db item now).recipes = db.recipes := by
    rw [saveRecipe_recipes, hfc]
  refine ⟨hrec, ?_, ?_⟩
  · unfold countBySpoon
    rw [hrec]
    exact hcount
  · rw [hrec]
    exact hfind

/-- Witness for C2: re-upserting external id 100 over `dbApple` keeps
the single original row intact. -/
theorem saveRecipe_first_write_wins_witness :
    (saveRecipe dbApple appleItem 5).recipes = dbApple.recipes ∧
    countBySpoon (saveRecipe dbApple appleItem 5) appleItem.id = 1 ∧
    (saveRecipe dbApple appleItem 5).recipes.find?
      (fun r => r.spoonacular_id == appleItem.id) = some appleRecipe :=
  saveRecipe_first_write_wins dbApple appleItem 5 appleRecipe (by decide) (by decide)

/-- C1 (amended): for a PHP-truthy query string (non-empty and not
`"0"`), when the provider call fails (network error or non-2xx) or
returns an empty set, `index` still answers `status: success` with
`source: database`, leaves the database unchanged, and its data is at
most 10 rows drawn only from persisted recipes whose title matches the
query under case-insensitive SQL `LIKE '%query%'` semantics — `%` and
`_` in the unescaped interpolated query act as wildcards, so for
metacharacter-free queries this is exactly case-insensitive substring
containment. -/
theorem index_provider_failure_db_fallback
    (shuffle : List Recipe → List Recipe) (db : DB) (provider : ProviderResult)
    (s : String) (now : Nat)
    (hq : phpTruthy (some s) = true)
    (hfail : fetchRecipes provider = .error () ∨ fetchRecipes provider = .ok []) :
    (index shuffle db provider (some s) now).1.status = "success" ∧
    (index shuffle db provider (some s) now).1.source = "database" ∧
    (index shuffle db provider (some s) now).2 = db ∧
    (index shuffle db provider (some s) now).1.data.length ≤ 10 ∧
    ∀ lr ∈ (index shuffle db provider (some s) now).1.data,
      ∃ r ∈ db.recipes, likeMatch s r.title = true ∧ lr = loadRelations db r := by
  have hidx : index shuffle db provider (some s) now = dbFallback shuffle db (some s) 10 := by
    rcases hfail with h | h <;> simp [index, h]
  rw [hidx]
  simp only [dbFallback, hq, if_true, Option.getD_some]
  refine ⟨trivial, trivial, trivial, ?_, ?_⟩
  · simp
  · intro lr hlr
    rcases List.mem_map.mp hlr with ⟨r, hr, rfl⟩
    have hr' : r ∈ db.recipes.filter (fun x => likeMatch s x.title) := List.mem_of_mem_take hr
    rcases List.mem_filter.mp hr' with ⟨hmem, hlike⟩
    exact ⟨r, hmem, hlike, rfl⟩

/-- Witness for C1 (amended): a network error with query `"apple"` over
`dbApple`. -/
theorem index_provider_failure_witness :
    phpTruthy (some "apple") = true ∧
    (index (fun l => l) dbApple .netError (some "apple") 0).1.status = "success" ∧
    (index (fun l => l) dbApple .netError (some "apple") 0).1.source = "database" ∧
    (index (fun l => l) dbApple .netError (some "apple") 0).2 = dbApple ∧
    (index (fun l => l) dbApple .netError (some "apple") 0).1.data.length ≤ 10 ∧
    ∀ lr ∈ (index (fun l => l) dbApple .netError (some "apple") 0).1.data,
      ∃ r ∈ dbApple.recipes, likeMatch "apple" r.title = true ∧ lr = loadRelations dbApple r :=
  ⟨by decide,
   index_provider_failure_db_fallback (fun l => l) dbApple .netError "apple" 0
     (by decide) (Or.inl rfl)⟩

/-- C1 counterexample, two concrete inputs against an unreachable
provider over `dbApple`.  Query `"0"` is PHP-falsy (`if ($query)`
fails), so the fallback runs `inRandomOrder` with no title filter and
returns the `Apple Pie` row, whose title does not contain `"0"`.  Query
`"%"` is PHP-truthy, but the fallback runs `title LIKE '%%%'`, which
every title matches, and again returns `Apple Pie`, whose title does
not contain `"%"` as a literal substring.  Both refute the claim's
guarantee that the data is drawn only from rows whose title contains
the query as a case-insensitive substring. -/
theorem index_query_zero_not_title_filtered :
    (index (fun l => l) dbApple .netError (some "0") 0).1.status = "success" ∧
    (index (fun l => l) dbApple .netError (some "0") 0).1.source = "database" ∧
    ¬ (∀ lr ∈ (index (fun l => l) dbApple .netError (some "0") 0).1.data,
        ∃ r ∈ dbApple.recipes, substrMatch "0" r.title = true ∧ lr = loadRelations dbApple r) ∧
    phpTruthy (some "%") = true ∧
    (index (fun l => l) dbApple .netError (some "%") 0).1.source = "database" ∧
    ¬ (∀ lr ∈ (index (fun l => l) dbApple .netError (some "%") 0).1.data,
        ∃ r ∈ dbApple.recipes, substrMatch "%" r.title = true ∧ lr = loadRelations dbApple r) := by
  decide

/-- C3: on a successful non-empty provider response, `index` saves the
items and returns exactly the rows re-read from the `recipes` table by
external id, with `dishTypes` and `ingredients` eagerly loaded — never
the raw provider payload. -/
theorem index_api_success_reads_back
    (shuffle : List Recipe → List Recipe) (db : DB) (provider : ProviderResult)
    (q : Option String) (now : Nat) (items : List ApiRecipe)
    (hfetch : fetchRecipes provider = .ok items) (hne : items ≠ []) :
    (index shuffle db provider q now).1.source = "api" ∧
    (index shuffle db provider q now).2 = saveRecipes db items now ∧
    (index shuffle db provider q now).1.data =
      ((saveRecipes db items now).recipes.filter
        (fun r => (items.map (fun i => i.id)).contains r.spoonacular_id)).map
        (loadRelations (saveRecipes db items now)) := by
  have hni : items.isEmpty = false := by
    cases items with
    | nil => exact absurd rfl hne
    | cons a as => rfl
  simp [index, hfetch, hni]

/-- Witness for C3: a successful one-item provider response over the
empty database. -/
theorem index_api_success_witness :
    fetchRecipes (.httpResp true [appleItem]) = .ok [appleItem] ∧
    ([appleItem] ≠ ([] : List ApiRecipe)) ∧
    (index (fun l => l) emptyDB (.httpResp true [appleItem]) none 7).1.source = "api" ∧
    (index (fun l => l) emptyDB (.httpResp true [appleItem]) none 7).2 =
      saveRecipes emptyDB [appleItem] 7 ∧
    (index (fun l => l) emptyDB (.httpResp true [appleItem]) none 7).1.data =
      ((saveRecipes emptyDB [appleItem] 7).recipes.filter
        (fun r => ([appleItem].map (fun i => i.id)).contains r.spoonacular_id)).map
        (loadRelations (saveRecipes emptyDB [appleItem] 7)) := by
  refine ⟨rfl, by decide, ?_⟩
  exact index_api_success_reads_back (fun l => l) emptyDB (.httpResp true [appleItem])
    none 7 [appleItem] rfl (by decide)

/-! ### Counting lemmas for the favorites join table -/

theorem any_eq_count_pos (p : α → Bool) (l : List α) :
    l.any p = decide (0 < (l.filter p).length) := by
  induction l with
  | nil => rfl
  | cons a as ih => by_cases h : p a <;> simp [h, ih]

theorem pairExists_eq (favs : List FavoriteRow) (u rid : Nat) :
    pairExists favs u rid = decide (0 < pairCount favs u rid) :=
  any_eq_count_pos _ favs

theorem removeFirstBy_filter_self (p : α → Bool) (l : List α) :
    (removeFirstBy p l).filter p = (l.filter p).tail := by
  induction l with
  | nil => rfl
  | cons a as ih =>
      by_cases h : p a
      · simp [removeFirstBy, h, List.filter_cons_of_pos]
      · simp [removeFirstBy, h, List.filter_cons_of_neg, ih]

theorem pairCount_append_self (favs : List FavoriteRow) (u rid now : Nat) :
    pairCount (favs ++ [⟨u, rid, now⟩]) u rid = pairCount favs u rid + 1 := by
  simp [pairCount, List.filter_append]

/-- C10: a `recipe_id` that is missing, not an integer, or not the id of
a persisted recipe makes all three favorites endpoints answer 422 with
no state change; in particular `check` never reports `is_favorited` for
such an id. -/
theorem favorites_invalid_recipe_id_422 (db : DB) (u now : Nat) (rv : RawVal)
    (hbad : validateRecipeId db rv = none) :
    (favStore db u rv now).1.http = 422 ∧ (favStore db u rv now).2 = db ∧
    (favDestroy db u rv).1.http = 422 ∧ (favDestroy db u rv).2 = db ∧
    (favCheck db u rv).http = 422 ∧ (favCheck db u rv).is_favorited = none := by
  simp [favStore, favDestroy, favCheck, hbad]

/-- Witness for C10: recipe id 99 does not exist in `dbApple`. -/
theorem favorites_invalid_recipe_id_witness :
    validateRecipeId dbApple (.intVal 99) = none ∧
    (favStore dbApple 7 (.intVal 99) 3).1.http = 422 ∧
    (favStore dbApple 7 (.intVal 99) 3).2 = dbApple ∧
    (favDestroy dbApple 7 (.intVal 99)).1.http = 422 ∧
    (favDestroy dbApple 7 (.intVal 99)).2 = dbApple ∧
    (favCheck dbApple 7 (.intVal 99)).http = 422 ∧
    (favCheck dbApple 7 (.intVal 99)).is_favorited = none :=
  ⟨by decide, favorites_invalid_recipe_id_422 dbApple 7 3 (.intVal 99) (by decide)⟩

/-- C4: storing a favorite for a valid recipe id answers 409 and inserts
nothing when the (user, recipe) pair already exists, and answers 201
inserting exactly one join row when it does not; the pair count never
exceeds one. -/
theorem favStore_uniqueness (db : DB) (u rid now : Nat)
    (hvalid : validateRecipeId db (.intVal rid) = some rid) :
    (0 < pairCount db.favorites u rid →
      (favStore db u (.intVal rid) now).1.http = 409 ∧
      (favStore db u (.intVal rid) now).2 = db) ∧
    (pairCount db.favorites u rid = 0 →
      (favStore db u (.intVal rid) now).1.http = 201 ∧
      pairCount (favStore db u (.intVal rid) now).2.favorites u rid = 1 ∧
      (favStore db u (.intVal rid) now).2.favorites.length = db.favorites.length + 1) ∧
    (pairCount db.favorites u rid ≤ 1 →
      pairCount (favStore db u (.intVal rid) now).2.favorites u rid ≤ 1) := by
  by_cases hpe : pairExists db.favorites u rid
  · have hpos : 0 < pairCount db.favorites u rid :=
      of_decide_eq_true ((pairExists_eq db.favorites u rid) ▸ hpe)
    have hres : favStore db u (.intVal rid) now = (⟨409, "error"⟩, db) := by
      simp [favStore, hvalid, hpe]
    rw [hres]
    exact ⟨fun _ => ⟨rfl, rfl⟩, fun h0 => absurd h0 (Nat.pos_iff_ne_zero.mp hpos),
           fun h1 => h1⟩
  · have hfalse : decide (0 < pairCount db.favorites u rid) = false := by
      rw [← pairExists_eq]
      exact Bool.eq_false_iff.mpr hpe
    have h0 : pairCount db.favorites u rid = 0 := by
      have := of_decide_eq_false hfalse
      omega
    have hres1 : (favStore db u (.intVal rid) now).1.http = 201 := by
      simp [favStore, hvalid, hpe]
    have hres2 : (favStore db u (.intVal rid) now).2.favorites =
        db.favorites ++ [⟨u, rid, now⟩] := by
      simp [favStore, hvalid, hpe]
    have hcnt := pairCount_append_self db.favorites u rid now
    refine ⟨fun hpos => absurd h0 (Nat.pos_iff_ne_zero.mp hpos),
            fun _ => ⟨hres1, by rw [hres2, hcnt, h0], by rw [hres2]; simp⟩,
            fun _ => by rw [hres2, hcnt]; omega⟩

/-- Witness for C4: user 7 and the persisted recipe id 1 of `dbApple`. -/
theorem favStore_uniqueness_witness :
    validateRecipeId dbApple (.intVal 1) = some 1 ∧
    ((0 < pairCount dbApple.favorites 7 1 →
      (favStore dbApple 7 (.intVal 1) 3).1.http = 409 ∧
      (favStore dbApple 7 (.intVal 1) 3).2 = dbApple) ∧
    (pairCount dbApple.favorites 7 1 = 0 →
      (favStore dbApple 7 (.intVal 1) 3).1.http = 201 ∧
      pairCount (favStore dbApple 7 (.intVal 1) 3).2.favorites 7 1 = 1 ∧
      (favStore dbApple 7 (.intVal 1) 3).2.favorites.length = dbApple.favorites.length + 1) ∧
    (pairCount dbApple.favorites 7 1 ≤ 1 →
      pairCount (favStore dbApple 7 (.intVal 1) 3).2.favorites 7 1 ≤ 1)) :=
  ⟨by decide, favStore_uniqueness dbApple 7 1 3 (by decide)⟩

/-- C5: under the uniqueness invariant for the pair, a successful store
makes a subsequent check report `is_favorited = true`, and a successful
destroy makes it report `is_favorited = false`. -/
theorem favCheck_after_store_and_destroy (db : DB) (u rid now : Nat)
    (hinv : pairCount db.favorites u rid ≤ 1) :
    ((favStore db u (.intVal rid) now).1.http = 201 →
      (favCheck (favStore db u (.intVal rid) now).2 u (.intVal rid)).is_favorited = some true) ∧
    ((favDestroy db u (.intVal rid)).1.http = 200 →
      (favCheck (favDestroy db u (.intVal rid)).2 u (.intVal rid)).is_favorited = some false) := by
  by_cases hc : db.recipes.any (fun r => r.id == rid)
  · have hval : validateRecipeId db (.intVal rid) = some rid := by
      simp [validateRecipeId, hc]
    constructor
    · intro h201
      by_cases hpe : pairExists db.favorites u rid
      · simp [favStore, hval, hpe] at h201
      · have hres2 : (favStore db u (.intVal rid) now).2.favorites =
            db.favorites ++ [⟨u, rid, now⟩] := by
          simp [favStore, hval, hpe]
        have hrecs : (favStore db u (.intVal rid) now).2.recipes = db.recipes := by
          simp [favStore, hval, hpe]
        have hval2 : validateRecipeId (favStore db u (.intVal rid) now).2 (.intVal rid) =
            some rid := by
          simp [validateRecipeId, hrecs, hc]
        have hex : pairExists (favStore db u (.intVal rid) now).2.favorites u rid = true := by
          rw [hres2]
          simp [pairExists]
        simp [favCheck, hval2, hex]
    · intro h200
      rcases hpf : pairFirst db.favorites u rid with _ | f
      · simp [favDestroy, hval, hpf] at h200
      · have hres2 : (favDestroy db u (.intVal rid)).2.favorites =
            removeFirstBy (fun f => f.user_id == u && f.recipe_id == rid) db.favorites := by
          simp [favDestroy, hval, hpf]
        have hrecs : (favDestroy db u (.intVal rid)).2.recipes = db.recipes := by
          simp [favDestroy, hval, hpf]
        have hval2 : validateRecipeId (favDestroy db u (.intVal rid)).2 (.intVal rid) =
            some rid := by
          simp [validateRecipeId, hrecs, hc]
        have hcnt : pairCount (favDestroy db u (.intVal rid)).2.favorites u rid = 0 := by
          rw [hres2]
          have htail := removeFirstBy_filter_self
            (fun f => f.user_id == u && f.recipe_id == rid) db.favorites
          have hpc : pairCount (removeFirstBy
              (fun f => f.user_id == u && f.recipe_id == rid) db.favorites) u rid =
              (db.favorites.filter
                (fun f => f.user_id == u && f.recipe_id == rid)).tail.length := by
            unfold pairCount
            rw [htail]
          rw [hpc, List.length_tail]
          have hle : pairCount db.favorites u rid ≤ 1 := hinv
          unfold pairCount at hle
          omega
        have hex : pairExists (favDestroy db u (.intVal rid)).2.favorites u rid = false := by
          rw [pairExists_eq, hcnt]
          simp
        simp [favCheck, hval2, hex]
  · have hval : validateRecipeId db (.intVal rid) = none := by
      simp [validateRecipeId, hc]
    constructor
    · intro h201
      simp [favStore, hval] at h201
    · intro h200
      simp [favDestroy, hval] at h200

/-- Witness for C5: user 7 and recipe id 1 over `dbApple`. -/
theorem favCheck_after_store_and_destroy_witness :
    pairCount dbApple.favorites 7 1 ≤ 1 ∧
    (((favStore dbApple 7 (.intVal 1) 3).1.http = 201 →
      (favCheck (favStore dbApple 7 (.intVal 1) 3).2 7 (.intVal 1)).is_favorited = some true) ∧
    ((favDestroy dbApple 7 (.intVal 1)).1.http = 200 →
      (favCheck (favDestroy dbApple 7 (.intVal 1)).2 7 (.intVal 1)).is_favorited = some false)) :=
  ⟨by decide, favCheck_after_store_and_destroy dbApple 7 1 3 (by decide)⟩

/-- C6 counterexample: `fetchFavorites` with the sort toggle unset sorts
by the *recipes* table `created_at`, not by when each favorite was
created.  In `dbFavOrder` user 1 favorited the newer recipe row first
and the older row most recently, so the claimed most-recently-favorited
order is `[1, 2]`, but the endpoint returns `[2, 1]`. -/
theorem fetchFavorites_not_by_favorite_time :
    (fetchFavorites dbFavOrder 1 none false 20 1).data.map (fun lr => lr.recipe.id) = [2, 1] ∧
    specMostRecentlyFavoritedIds dbFavOrder 1 = [1, 2] ∧
    (fetchFavorites dbFavOrder 1 none false 20 1).data.map (fun lr => lr.recipe.id) ≠
      specMostRecentlyFavoritedIds dbFavOrder 1 := by
  decide

/-- C6 (amended): with the sort toggle unset and no search filter, the
listing returns exactly the user's favorited recipes (as a permutation
of the favorited filter of the recipes table, relations loaded), ordered
descending by the *recipe row's* `created_at` timestamp — the time the
recipe was first persisted, not the time it was favorited. -/
theorem fetchFavorites_default_order (db : DB) (u limit : Nat)
    (hlimit : db.recipes.length ≤ limit) :
    List.Pairwise (fun a b => b.recipe.created_at ≤ a.recipe.created_at)
      (fetchFavorites db u none false limit 1).data ∧
    ((fetchFavorites db u none false limit 1).data).Perm
      ((db.recipes.filter (fun r => pairExists db.favorites u r.id)).map (loadRelations db)) := by
  haveI hto : IsTotal Recipe (fun a b => b.created_at ≤ a.created_at) :=
    ⟨fun a b => Nat.le_total b.created_at a.created_at⟩
  haveI htr : IsTrans Recipe (fun a b => b.created_at ≤ a.created_at) :=
    ⟨fun _ _ _ hab hbc => le_trans hbc hab⟩
  have hsortlen : (List.insertionSort (fun a b => b.created_at ≤ a.created_at)
      (db.recipes.filter (fun r => pairExists db.favorites u r.id))).length ≤ limit := by
    rw [List.length_insertionSort]
    exact le_trans (List.length_filter_le _ _) hlimit
  have hdata : (fetchFavorites db u none false limit 1).data =
      (List.insertionSort (fun a b => b.created_at ≤ a.created_at)
        (db.recipes.filter (fun r => pairExists db.favorites u r.id))).map
        (loadRelations db) := by
    simp [fetchFavorites, phpTruthy, List.take_of_length_le hsortlen]
  rw [hdata]
  constructor
  · exact List.pairwise_map.mpr
      (List.sorted_insertionSort (fun a b : Recipe => b.created_at ≤ a.created_at) _)
  · exact (List.perm_insertionSort _ _).map (loadRelations db)

/-- Witness for C6 (amended): the two-recipe scenario of `dbFavOrder`. -/
theorem fetchFavorites_default_order_witness :
    dbFavOrder.recipes.length ≤ 20 ∧
    (List.Pairwise (fun a b => b.recipe.created_at ≤ a.recipe.created_at)
      (fetchFavorites dbFavOrder 1 none false 20 1).data ∧
    ((fetchFavorites dbFavOrder 1 none false 20 1).data).Perm
      ((dbFavOrder.recipes.filter
        (fun r => pairExists dbFavOrder.favorites 1 r.id)).map (loadRelations dbFavOrder))) :=
  ⟨by decide, fetchFavorites_default_order dbFavOrder 1 20 (by decide)⟩


/-! ### Filter lemmas for user-scoped queries -/

theorem removeFirstBy_cons (p : α → Bool) (a : α) (as : List α) :
    removeFirstBy p (a :: as) = if p a then as else a :: removeFirstBy p as := rfl

theorem any_and_filter (p q : α → Bool) (l : List α) :
    l.any (fun a => p a && q a) = (l.filter p).any q := by
  induction l with
  | nil => rfl
  | cons a as ih =>
      by_cases h : p a
      · rw [List.any_cons, List.filter_cons_of_pos h, List.any_cons, h, Bool.true_and, ih]
      · have h' : p a = false := Bool.eq_false_iff.mpr h
        rw [List.any_cons, List.filter_cons_of_neg h, h', Bool.false_and, Bool.false_or, ih]

theorem pairExists_filter_user (favs : List FavoriteRow) (u rid : Nat) :
    pairExists favs u rid =
      (favs.filter (fun f => f.user_id == u)).any (fun f => f.recipe_id == rid) :=
  any_and_filter _ _ favs

theorem find?_and_filter (p q : α → Bool) (l : List α) :
    l.find? (fun a => p a && q a) = (l.filter p).find? (fun a => p a && q a) := by
  induction l with
  | nil => rfl
  | cons a as ih =>
      by_cases hp : p a
      · by_cases hq : q a
        · have hpq : (p a && q a) = true := by rw [hp, hq]; rfl
          rw [@List.find?_cons_of_pos _ (fun a => p a && q a) a as hpq,
              List.filter_cons_of_pos hp,
              @List.find?_cons_of_pos _ (fun a => p a && q a) a (List.filter p as) hpq]
        · have hq' : q a = false := Bool.eq_false_iff.mpr hq
          have hpq : ¬((p a && q a) = true) := by rw [hq']; simp
          rw [@List.find?_cons_of_neg _ (fun a => p a && q a) a as hpq,
              List.filter_cons_of_pos hp,
              @List.find?_cons_of_neg _ (fun a => p a && q a) a (List.filter p as) hpq, ih]
      · have hp' : p a = false := Bool.eq_false_iff.mpr hp
        have hpq : ¬((p a && q a) = true) := by rw [hp']; simp
        rw [@List.find?_cons_of_neg _ (fun a => p a && q a) a as hpq,
            List.filter_cons_of_neg hp, ih]

theorem removeFirstBy_filter_comm (p q : α → Bool) (l : List α) :
    (removeFirstBy (fun a => p a && q a) l).filter p =
      removeFirstBy (fun a => p a && q a) (l.filter p) := by
  induction l with
  | nil => rfl
  | cons a as ih =>
      by_cases hp : p a
      · by_cases hq : q a
        · have hpq : (p a && q a) = true := by rw [hp, hq]; rfl
          rw [removeFirstBy_cons, List.filter_cons_of_pos hp, removeFirstBy_cons,
              if_pos hpq, if_pos hpq]
        · have hq' : q a = false := Bool.eq_false_iff.mpr hq
          have hpq : ¬((p a && q a) = true) := by rw [hq']; simp
          rw [removeFirstBy_cons, List.filter_cons_of_pos hp, removeFirstBy_cons,
              if_neg hpq, if_neg hpq, List.filter_cons_of_pos hp, ih]
      · have hp' : p a = false := Bool.eq_false_iff.mpr hp
        have hpq : ¬((p a && q a) = true) := by rw [hp']; simp
        rw [removeFirstBy_cons, List.filter_cons_of_neg hp, if_neg hpq,
            List.filter_cons_of_neg hp, ih]

theorem filter_removeFirstBy_other (p q : α → Bool) (l : List α)
    (h : ∀ a, q a = true → p a = false) :
    (removeFirstBy q l).filter p = l.filter p := by
  induction l with
  | nil => rfl
  | cons a as ih =>
      by_cases hq : q a
      · have hp' : p a = false := h a hq
        have hp : ¬(p a = true) := by rw [hp']; simp
        rw [removeFirstBy_cons, if_pos hq, List.filter_cons_of_neg hp]
      · rw [removeFirstBy_cons, if_neg hq]
        by_cases hp : p a
        · rw [List.filter_cons_of_pos hp, List.filter_cons_of_pos hp, ih]
        · rw [List.filter_cons_of_neg hp, List.filter_cons_of_neg hp, ih]

/-- C7: every favorites operation is scoped by the calling user's id —
two databases agreeing on user u's favorite rows (and on all
non-favorites tables) are indistinguishable to u's add, remove, check
and list operations, and the mutating operations never touch another
user's rows. -/
theorem favorites_user_scoped (db1 db2 : DB) (u : Nat) (rv : RawVal) (now : Nat)
    (search : Option String) (sortByName : Bool) (limit page : Nat)
    (hrec : db1.recipes = db2.recipes)
    (hing : db1.ingredients = db2.ingredients)
    (hdt : db1.dishTypes = db2.dishTypes)
    (hri : db1.recipeIngredient = db2.recipeIngredient)
    (hrdt : db1.recipeDishType = db2.recipeDishType)
    (hagree : db1.favorites.filter (fun f => f.user_id == u) =
              db2.favorites.filter (fun f => f.user_id == u)) :
    (favStore db1 u rv now).1 = (favStore db2 u rv now).1 ∧
    (favDestroy db1 u rv).1 = (favDestroy db2 u rv).1 ∧
    favCheck db1 u rv = favCheck db2 u rv ∧
    fetchFavorites db1 u search sortByName limit page =
      fetchFavorites db2 u search sortByName limit page ∧
    ((favStore db1 u rv now).2.favorites.filter (fun f => f.user_id == u) =
      (favStore db2 u rv now).2.favorites.filter (fun f => f.user_id == u)) ∧
    ((favDestroy db1 u rv).2.favorites.filter (fun f => f.user_id == u) =
      (favDestroy db2 u rv).2.favorites.filter (fun f => f.user_id == u)) ∧
    (∀ v, v ≠ u →
      (favStore db1 u rv now).2.favorites.filter (fun f => f.user_id == v) =
        db1.favorites.filter (fun f => f.user_id == v) ∧
      (favDestroy db1 u rv).2.favorites.filter (fun f => f.user_id == v) =
        db1.favorites.filter (fun f => f.user_id == v)) := by
  have hex : ∀ rid, pairExists db1.favorites u rid = pairExists db2.favorites u rid := by
    intro rid
    rw [pairExists_filter_user, pairExists_filter_user, hagree]
  have hfirst : ∀ rid, pairFirst db1.favorites u rid = pairFirst db2.favorites u rid := by
    intro rid
    unfold pairFirst
    calc db1.favorites.find? (fun f => f.user_id == u && f.recipe_id == rid)
        = (db1.favorites.filter (fun f => f.user_id == u)).find?
            (fun f => f.user_id == u && f.recipe_id == rid) := find?_and_filter _ _ _
      _ = (db2.favorites.filter (fun f => f.user_id == u)).find?
            (fun f => f.user_id == u && f.recipe_id == rid) := by rw [hagree]
      _ = db2.favorites.find? (fun f => f.user_id == u && f.recipe_id == rid) :=
          (find?_and_filter _ _ _).symm
  have hval : validateRecipeId db1 rv = validateRecipeId db2 rv := by
    unfold validateRecipeId
    cases rv with
    | missing => rfl
    | notInt => rfl
    | intVal n => rw [hrec]
  have hstore : (favStore db1 u rv now).1 = (favStore db2 u rv now).1 ∧
      (favStore db1 u rv now).2.favorites.filter (fun f => f.user_id == u) =
        (favStore db2 u rv now).2.favorites.filter (fun f => f.user_id == u) := by
    unfold favStore
    rw [hval]
    cases hv : validateRecipeId db2 rv with
    | none => exact ⟨rfl, hagree⟩
    | some rid =>
        dsimp only
        rw [hex rid]
        by_cases hpe : pairExists db2.favorites u rid
        · rw [if_pos hpe, if_pos hpe]
          exact ⟨rfl, hagree⟩
        · rw [if_neg hpe, if_neg hpe]
          refine ⟨rfl, ?_⟩
          show (db1.favorites ++
              [({ user_id := u, recipe_id := rid, created_at := now } : FavoriteRow)]).filter
              (fun f => f.user_id == u) =
            (db2.favorites ++
              [({ user_id := u, recipe_id := rid, created_at := now } : FavoriteRow)]).filter
              (fun f => f.user_id == u)
          rw [List.filter_append, List.filter_append, hagree]
  have hdest : (favDestroy db1 u rv).1 = (favDestroy db2 u rv).1 ∧
      (favDestroy db1 u rv).2.favorites.filter (fun f => f.user_id == u) =
        (favDestroy db2 u rv).2.favorites.filter (fun f => f.user_id == u) := by
    unfold favDestroy
    rw [hval]
    cases hv : validateRecipeId db2 rv with
    | none => exact ⟨rfl, hagree⟩
    | some rid =>
        dsimp only
        rw [hfirst rid]
        cases hpf : pairFirst db2.favorites u rid with
        | none => exact ⟨rfl, hagree⟩
        | some f =>
            dsimp only
            refine ⟨rfl, ?_⟩
            show (removeFirstBy (fun f => f.user_id == u && f.recipe_id == rid)
                db1.favorites).filter (fun f => f.user_id == u) =
              (removeFirstBy (fun f => f.user_id == u && f.recipe_id == rid)
                db2.favorites).filter (fun f => f.user_id == u)
            rw [removeFirstBy_filter_comm, removeFirstBy_filter_comm, hagree]
  have hcheck : favCheck db1 u rv = favCheck db2 u rv := by
    unfold favCheck
    rw [hval]
    cases hv : validateRecipeId db2 rv with
    | none => rfl
    | some rid =>
        dsimp only
        rw [hex rid]
  have hload : loadRelations db1 = loadRelations db2 := by
    funext r
    unfold loadRelations
    rw [hdt, hri, hrdt, hing]
  have hfetch : fetchFavorites db1 u search sortByName limit page =
      fetchFavorites db2 u search sortByName limit page := by
    unfold fetchFavorites
    rw [hrec, hload]
    have hbase : db2.recipes.filter (fun r => pairExists db1.favorites u r.id) =
        db2.recipes.filter (fun r => pairExists db2.favorites u r.id) :=
      List.filter_congr (fun r _ => hex r.id)
    rw [hbase]
  have hframe : ∀ v, v ≠ u →
      (favStore db1 u rv now).2.favorites.filter (fun f => f.user_id == v) =
        db1.favorites.filter (fun f => f.user_id == v) ∧
      (favDestroy db1 u rv).2.favorites.filter (fun f => f.user_id == v) =
        db1.favorites.filter (fun f => f.user_id == v) := by
    intro v hvu
    have hune : (u == v) = false := beq_eq_false_iff_ne.mpr (Ne.symm hvu)
    constructor
    · unfold favStore
      cases hv : validateRecipeId db1 rv with
      | none => rfl
      | some rid =>
          dsimp only
          by_cases hpe : pairExists db1.favorites u rid
          · rw [if_pos hpe]
          · rw [if_neg hpe]
            show (db1.favorites ++
                [({ user_id := u, recipe_id := rid, created_at := now } : FavoriteRow)]).filter
                (fun f => f.user_id == v) =
              db1.favorites.filter (fun f => f.user_id == v)
            rw [List.filter_append]
            simp [hune]
    · unfold favDestroy
      cases hv : validateRecipeId db1 rv with
      | none => rfl
      | some rid =>
          dsimp only
          cases hpf : pairFirst db1.favorites u rid with
          | none => rfl
          | some f =>
              dsimp only
              show (removeFirstBy (fun f => f.user_id == u && f.recipe_id == rid)
                  db1.favorites).filter (fun f => f.user_id == v) =
                db1.favorites.filter (fun f => f.user_id == v)
              refine filter_removeFirstBy_other _ _ _ ?_
              intro a ha
              have h1 : a.user_id = u := eq_of_beq ((Bool.and_eq_true _ _).mp ha).1
              rw [h1]
              exact hune
  exact ⟨hstore.1, hdest.1, hcheck, hfetch, hstore.2, hdest.2, hframe⟩

/-- Witness for C7: `dbTwoUsers` and `dbUserSeven` differ only in user
2's favorite row; user 7's operations cannot tell them apart. -/
theorem favorites_user_scoped_witness :
    (dbTwoUsers.favorites.filter (fun f => f.user_id == 7) =
      dbUserSeven.favorites.filter (fun f => f.user_id == 7)) ∧
    ((favStore dbTwoUsers 7 (.intVal 1) 3).1 = (favStore dbUserSeven 7 (.intVal 1) 3).1 ∧
    (favDestroy dbTwoUsers 7 (.intVal 1)).1 = (favDestroy dbUserSeven 7 (.intVal 1)).1 ∧
    favCheck dbTwoUsers 7 (.intVal 1) = favCheck dbUserSeven 7 (.intVal 1) ∧
    fetchFavorites dbTwoUsers 7 none false 20 1 = fetchFavorites dbUserSeven 7 none false 20 1 ∧
    ((favStore dbTwoUsers 7 (.intVal 1) 3).2.favorites.filter (fun f => f.user_id == 7) =
      (favStore dbUserSeven 7 (.intVal 1) 3).2.favorites.filter (fun f => f.user_id == 7)) ∧
    ((favDestroy dbTwoUsers 7 (.intVal 1)).2.favorites.filter (fun f => f.user_id == 7) =
      (favDestroy dbUserSeven 7 (.intVal 1)).2.favorites.filter (fun f => f.user_id == 7)) ∧
    (∀ v, v ≠ 7 →
      (favStore dbTwoUsers 7 (.intVal 1) 3).2.favorites.filter (fun f => f.user_id == v) =
        dbTwoUsers.favorites.filter (fun f => f.user_id == v) ∧
      (favDestroy dbTwoUsers 7 (.intVal 1)).2.favorites.filter (fun f => f.user_id == v) =
        dbTwoUsers.favorites.filter (fun f => f.user_id == v))) :=
  ⟨by decide,
   favorites_user_scoped dbTwoUsers dbUserSeven 7 (.intVal 1) 3 none false 20 1
     rfl rfl rfl rfl rfl (by decide)⟩

/-- C9: the route guard redirects to `home` exactly when the target
requires authentication and no user is logged in, redirects to
`/search` exactly when the target is guest-only and a user is logged
in, proceeds otherwise, and emits exactly one notification on every
navigation regardless of the outcome. -/
theorem beforeEach_guard_cases (logged : Bool) (t : RouteTarget) :
    (beforeEach logged t).notifications.length = 1 ∧
    ((beforeEach logged t).decision = .redirectHome ↔
      (t.matchedRequiresAuth = true ∧ logged = false)) ∧
    ((beforeEach logged t).decision = .redirectSearch ↔
      (t.metaRequiresGuest = true ∧ logged = true)) ∧
    ((beforeEach logged t).decision = .proceed ↔
      (¬(t.matchedRequiresAuth = true ∧ logged = false) ∧
       ¬(t.metaRequiresGuest = true ∧ logged = true))) := by
  obtain ⟨n, a, g⟩ := t
  cases a <;> cases g <;> cases logged <;> simp [beforeEach]


/-! ### Dedup and additivity of the attach helpers -/

theorem recipeFirstOrCreate_frame (db : DB) (item : ApiRecipe) (now : Nat) :
    ((recipeFirstOrCreate db item now).2).ingredients = db.ingredients ∧
    ((recipeFirstOrCreate db item now).2).dishTypes = db.dishTypes ∧
    ((recipeFirstOrCreate db item now).2).recipeIngredient = db.recipeIngredient ∧
    ((recipeFirstOrCreate db item now).2).recipeDishType = db.recipeDishType ∧
    ((recipeFirstOrCreate db item now).2).favorites = db.favorites := by
  unfold recipeFirstOrCreate
  cases db.recipes.find? (fun r => r.spoonacular_id == item.id) <;> simp

theorem dishTypeFirstOrCreate_dedup (db : DB) (n : String)
    (h : db.dishTypes.Pairwise (fun a b => a.name ≠ b.name)) :
    ((dishTypeFirstOrCreate db n).2).dishTypes.Pairwise (fun a b => a.name ≠ b.name) := by
  unfold dishTypeFirstOrCreate
  cases hf : db.dishTypes.find? (fun d => d.name == n) with
  | some d => exact h
  | none =>
      dsimp only
      rw [List.pairwise_append]
      refine ⟨h, List.pairwise_singleton _ _, ?_⟩
      intro a ha b hb
      rcases List.mem_singleton.mp hb with rfl
      intro heq
      exact (List.find?_eq_none.mp hf a ha) (beq_iff_eq.mpr heq)

theorem dishTypeIds_dedup (names : List String) (db : DB)
    (h : db.dishTypes.Pairwise (fun a b => a.name ≠ b.name)) :
    ((dishTypeIds db names).2).dishTypes.Pairwise (fun a b => a.name ≠ b.name) := by
  induction names generalizing db with
  | nil => exact h
  | cons ty rest ih => exact ih _ (dishTypeFirstOrCreate_dedup db ty h)

theorem ingredientFirstOrCreate_dedup (db : DB) (ing : ApiIngredient)
    (h : db.ingredients.Pairwise (fun a b => a.spoonacular_id ≠ b.spoonacular_id)) :
    ((ingredientFirstOrCreate db ing).2).ingredients.Pairwise
      (fun a b => a.spoonacular_id ≠ b.spoonacular_id) := by
  unfold ingredientFirstOrCreate
  cases hf : db.ingredients.find? (fun i => i.spoonacular_id == ing.id) with
  | some i => exact h
  | none =>
      dsimp only
      rw [List.pairwise_append]
      refine ⟨h, List.pairwise_singleton _ _, ?_⟩
      intro a ha b hb
      rcases List.mem_singleton.mp hb with rfl
      intro heq
      exact (List.find?_eq_none.mp hf a ha) (beq_iff_eq.mpr heq)

theorem ingredientSyncData_dedup (ings : List ApiIngredient) (db : DB)
    (acc : List (Nat × Option Int × Option String))
    (h : db.ingredients.Pairwise (fun a b => a.spoonacular_id ≠ b.spoonacular_id)) :
    ((ingredientSyncData db acc ings).2).ingredients.Pairwise
      (fun a b => a.spoonacular_id ≠ b.spoonacular_id) := by
  induction ings generalizing db acc with
  | nil => exact h
  | cons ing rest ih => exact ih _ _ (ingredientFirstOrCreate_dedup db ing h)

theorem syncDishOne_mem (recipeId : Nat) (rows : List RecipeDishTypeRow) (i : Nat)
    (row : RecipeDishTypeRow) (h : row ∈ rows) : row ∈ syncDishOne recipeId rows i := by
  unfold syncDishOne
  by_cases hc : rows.any (fun r => r.recipe_id == recipeId && r.dish_type_id == i)
  · rw [if_pos hc]
    exact h
  · rw [if_neg hc]
    exact List.mem_append_left _ h

theorem syncDishWithoutDetaching_mem (recipeId : Nat) (ids : List Nat)
    (rows : List RecipeDishTypeRow) (row : RecipeDishTypeRow) (h : row ∈ rows) :
    row ∈ syncDishWithoutDetaching recipeId rows ids := by
  induction ids generalizing rows with
  | nil => exact h
  | cons i rest ih => exact ih _ (syncDishOne_mem recipeId rows i row h)

theorem syncIngOne_pairs (recipeId : Nat) (rows : List RecipeIngredientRow)
    (e : Nat × Option Int × Option String) (pr : Nat × Nat)
    (h : pr ∈ attachedPairs rows) : pr ∈ attachedPairs (syncIngOne recipeId rows e) := by
  unfold syncIngOne
  by_cases hc : rows.any (fun row => row.recipe_id == recipeId && row.ingredient_id == e.1)
  · rw [if_pos hc]
    have hmap : attachedPairs (rows.map (fun row =>
        if row.recipe_id == recipeId && row.ingredient_id == e.1 then
          { row with amount := e.2.1, unit := e.2.2 }
        else row)) = attachedPairs rows := by
      unfold attachedPairs
      rw [List.map_map]
      apply List.map_congr_left
      intro row hrow
      simp only [Function.comp_apply]
      by_cases hb : row.recipe_id == recipeId && row.ingredient_id == e.1
      · rw [if_pos hb]
      · rw [if_neg hb]
    rw [hmap]
    exact h
  · rw [if_neg hc]
    unfold attachedPairs at h ⊢
    rw [List.map_append]
    exact List.mem_append_left _ h

theorem syncIngWithoutDetaching_pairs (recipeId : Nat)
    (es : List (Nat × Option Int × Option String)) (rows : List RecipeIngredientRow)
    (pr : Nat × Nat) (h : pr ∈ attachedPairs rows) :
    pr ∈ attachedPairs (syncIngWithoutDetaching recipeId rows es) := by
  induction es generalizing rows with
  | nil => exact h
  | cons e rest ih => exact ih _ (syncIngOne_pairs recipeId rows e pr h)

theorem attachDishTypes_dedup (db : DB) (rid : Nat) (names : List String)
    (h : db.dishTypes.Pairwise (fun a b => a.name ≠ b.name)) :
    (attachDishTypes db rid names).dishTypes.Pairwise (fun a b => a.name ≠ b.name) := by
  unfold attachDishTypes
  by_cases he : names.isEmpty
  · rw [if_pos he]
    exact h
  · rw [if_neg he]
    exact dishTypeIds_dedup names db h

theorem attachDishTypes_additive (db : DB) (rid : Nat) (names : List String)
    (row : RecipeDishTypeRow) (h : row ∈ db.recipeDishType) :
    row ∈ (attachDishTypes db rid names).recipeDishType := by
  unfold attachDishTypes
  by_cases he : names.isEmpty
  · rw [if_pos he]
    exact h
  · rw [if_neg he]
    dsimp only
    rw [(dishTypeIds_frame names db).2.2.2.1]
    exact syncDishWithoutDetaching_mem rid _ _ row h

theorem attachIngredients_dedup (db : DB) (rid : Nat) (ings : List ApiIngredient)
    (h : db.ingredients.Pairwise (fun a b => a.spoonacular_id ≠ b.spoonacular_id)) :
    (attachIngredients db rid ings).ingredients.Pairwise
      (fun a b => a.spoonacular_id ≠ b.spoonacular_id) := by
  unfold attachIngredients
  by_cases he : ings.isEmpty
  · rw [if_pos he]
    exact h
  · rw [if_neg he]
    exact ingredientSyncData_dedup ings db [] h

theorem attachIngredients_additive (db : DB) (rid : Nat) (ings : List ApiIngredient)
    (pr : Nat × Nat) (h : pr ∈ attachedPairs db.recipeIngredient) :
    pr ∈ attachedPairs (attachIngredients db rid ings).recipeIngredient := by
  unfold attachIngredients
  by_cases he : ings.isEmpty
  · rw [if_pos he]
    exact h
  · rw [if_neg he]
    dsimp only
    rw [(ingredientSyncData_frame ings db []).2.2.1]
    exact syncIngWithoutDetaching_pairs rid _ _ pr h

/-- C8: the reconciliation upsert keeps Ingredient and DishType rows
deduplicated by their natural keys (name for dish types, spoonacular id
for ingredients) and only ever adds to the two pivot tables: every
previously attached dish-type row and every previously attached
(recipe, ingredient) pair is still attached after another run. -/
theorem saveRecipe_shared_rows_additive (db : DB) (item : ApiRecipe) (now : Nat)
    (hd : db.dishTypes.Pairwise (fun a b => a.name ≠ b.name))
    (hi : db.ingredients.Pairwise (fun a b => a.spoonacular_id ≠ b.spoonacular_id)) :
    (saveRecipe db item now).dishTypes.Pairwise (fun a b => a.name ≠ b.name) ∧
    (saveRecipe db item now).ingredients.Pairwise
      (fun a b => a.spoonacular_id ≠ b.spoonacular_id) ∧
    (∀ row ∈ db.recipeDishType, row ∈ (saveRecipe db item now).recipeDishType) ∧
    (∀ pr ∈ attachedPairs db.recipeIngredient,
      pr ∈ attachedPairs (saveRecipe db item now).recipeIngredient) := by
  unfold saveRecipe
  have hf0 := recipeFirstOrCreate_frame db item now
  have hd0 : ((recipeFirstOrCreate db item now).2).dishTypes.Pairwise
      (fun a b => a.name ≠ b.name) := by rw [hf0.2.1]; exact hd
  have hi0 : ((recipeFirstOrCreate db item now).2).ingredients.Pairwise
      (fun a b => a.spoonacular_id ≠ b.spoonacular_id) := by rw [hf0.1]; exact hi
  have hd1 := attachDishTypes_dedup (recipeFirstOrCreate db item now).2
    (recipeFirstOrCreate db item now).1.id item.dishTypes hd0
  have hi1 : (attachDishTypes (recipeFirstOrCreate db item now).2
      (recipeFirstOrCreate db item now).1.id item.dishTypes).ingredients.Pairwise
      (fun a b => a.spoonacular_id ≠ b.spoonacular_id) := by
    rw [(attachDishTypes_frame _ _ _).2.1]
    exact hi0
  refine ⟨?_, ?_, ?_, ?_⟩
  · rw [(attachIngredients_frame _ _ _).2.1]
    exact hd1
  · exact attachIngredients_dedup _ _ _ hi1
  · intro row hrow
    have h0 : row ∈ ((recipeFirstOrCreate db item now).2).recipeDishType := by
      rw [hf0.2.2.2.1]
      exact hrow
    have h1 := attachDishTypes_additive (recipeFirstOrCreate db item now).2
      (recipeFirstOrCreate db item now).1.id item.dishTypes row h0
    rw [(attachIngredients_frame _ _ _).2.2.1]
    exact h1
  · intro pr hpr
    have h0 : pr ∈ attachedPairs ((recipeFirstOrCreate db item now).2).recipeIngredient := by
      rw [hf0.2.2.1]
      exact hpr
    have h1 : pr ∈ attachedPairs (attachDishTypes (recipeFirstOrCreate db item now).2
        (recipeFirstOrCreate db item now).1.id item.dishTypes).recipeIngredient := by
      rw [(attachDishTypes_frame _ _ _).2.2.1]
      exact h0
    exact attachIngredients_additive _ _ _ pr h1

/-- Witness for C8: re-upserting `appleItem` over `dbApple`. -/
theorem saveRecipe_shared_rows_additive_witness :
    dbApple.dishTypes.Pairwise (fun a b => a.name ≠ b.name) ∧
    dbApple.ingredients.Pairwise (fun a b => a.spoonacular_id ≠ b.spoonacular_id) ∧
    ((saveRecipe dbApple appleItem 5).dishTypes.Pairwise (fun a b => a.name ≠ b.name) ∧
    (saveRecipe dbApple appleItem 5).ingredients.Pairwise
      (fun a b => a.spoonacular_id ≠ b.spoonacular_id) ∧
    (∀ row ∈ dbApple.recipeDishType, row ∈ (saveRecipe dbApple appleItem 5).recipeDishType) ∧
    (∀ pr ∈ attachedPairs dbApple.recipeIngredient,
      pr ∈ attachedPairs (saveRecipe dbApple appleItem 5).recipeIngredient)) :=
  ⟨by decide, by decide, saveRecipe_shared_rows_additive dbApple appleItem 5
    (by decide) (by decide)⟩

end JejoRecipeFinder
